import Mathlib

/-!
Verification of the glm-met provider-adapter layer: data model, the
reanalysis-historical adapter's fetch / convert / persist lifecycle, and the
canonical GLM table schema.  The package modules themselves are not part of
the checked sources, so each operation is modelled from the specification
(§3–§8) and checked against the recorded notebook outputs.
-/

namespace GlmMet

/-- Exact decimal number with value `mant / 10 ^ exp`.  Models the decimal
literals carried by provider JSON bodies and by CSV cells. -/
structure Dec where
  mant : Int
  exp : Nat
deriving DecidableEq, Repr

/-- Rational value of a decimal. -/
def Dec.toRat (d : Dec) : ℚ := (d.mant : ℚ) / (10 : ℚ) ^ d.exp

/-- Exact division of a decimal by 100. -/
def Dec.div100 (d : Dec) : Dec := ⟨d.mant, d.exp + 2⟩

/-- A table cell: a timestamp string, a numeric observation, or a null
marker standing for a missing observation. -/
inductive Cell where
  | str (s : String)
  | num (d : Dec)
  | null
deriving DecidableEq, Repr

/-- Rational value of a numeric cell, `none` otherwise. -/
def Cell.ratValue : Cell → Option ℚ
  | .str _ => none
  | .num d => some d.toRat
  | .null => none

/-- Modelled from the spec: the in-memory tabular data structure (§1, §3) —
a header of column names and rows of cells. -/
structure Table where
  header : List String
  rows : List (List Cell)
deriving DecidableEq, Repr

/-- Modelled from the spec: the MetData container (§2, §3) — a metadata
mapping together with the raw data table returned by a provider query. -/
structure MetData where
  metadata : List (String × String)
  data : Table
deriving DecidableEq, Repr

/-- Name of the timestamp column. -/
def colTime : String := "time"

/-- Provider vocabulary entry: 2 m air temperature. -/
def varTemp : String := "temperature_2m"

/-- Provider vocabulary entry: 2 m relative humidity. -/
def varRelHum : String := "relativehumidity_2m"

/-- Provider vocabulary entry: precipitation. -/
def varPrecip : String := "precipitation"

/-- Provider vocabulary entry: cloud cover (percent). -/
def varCloud : String := "cloudcover"

/-- Provider vocabulary entry: 10 m wind speed. -/
def varWind : String := "windspeed_10m"

/-- Provider vocabulary entry: shortwave radiation. -/
def varShortwave : String := "shortwave_radiation"

/-- Modelled from the spec: the source variables `convertToGlmFormat`
requires at minimum (§4.2). -/
def glmRequiredVars : List String :=
  [varShortwave, varCloud, varTemp, varRelHum, varWind, varPrecip]

/-- Modelled from the spec: the fixed canonical GLM schema (§3). -/
def glmHeader : List String :=
  ["time", "ShortWave", "Cloud", "AirTemp", "RelHum", "WindSpeed", "Rain"]

/-- Replace the ISO `T` date/time separator by a space. -/
def reformatChar (c : Char) : Char := if c = 'T' then ' ' else c

/-- Modelled from the spec: timestamp strings are reformatted from
`YYYY-MM-DDTHH:MM` to `YYYY-MM-DD HH:MM` (§4.2). -/
def reformatTime (s : String) : String := ⟨s.data.map reformatChar⟩

/-- Timestamp reformatting lifted to a cell (non-string cells untouched). -/
def Cell.reformat : Cell → Cell
  | .str s => .str (reformatTime s)
  | .num d => .num d
  | .null => .null

/-- Division by 100 lifted to a cell (non-numeric cells untouched). -/
def Cell.div100 : Cell → Cell
  | .str s => .str s
  | .num d => .num d.div100
  | .null => .null

/-- Placeholder cell for lookups into ill-formed rows; never hit on tables
whose rows are aligned with their header. -/
def junkCell : Cell := .str ⟨[]⟩

/-- Column selection: the cell of `row` under header entry `v`. -/
def rowCell (hdr : List String) (row : List Cell) (v : String) : Cell :=
  ((hdr.zip row).lookup v).getD junkCell

/-- GLM-required source variables absent from a table's header. -/
def missingVars (t : Table) : List String :=
  glmRequiredVars.filter (fun v => ! t.header.contains v)

/-- Modelled from the spec: `ConversionError` names the required source
fields absent when mapping to the canonical schema (§7, §8). -/
structure ConversionError where
  missing : List String
deriving DecidableEq, Repr

/-- Modelled from the spec: the per-row normalization of §4.2 — timestamp
reformatted, cloud cover divided by 100, the other fields passed through,
in the fixed canonical column order. -/
def convertRow (hdr : List String) (row : List Cell) : List Cell :=
  [(rowCell hdr row colTime).reformat,
   rowCell hdr row varShortwave,
   (rowCell hdr row varCloud).div100,
   rowCell hdr row varTemp,
   rowCell hdr row varRelHum,
   rowCell hdr row varWind,
   rowCell hdr row varPrecip]

/-- Modelled from the spec: `convertToGlmFormat` on the raw table — fails
with a `ConversionError` naming the missing required variables, otherwise
maps every row into the canonical GLM schema (§4.1, §4.2). -/
def convert_to_glm_table (t : Table) : Except ConversionError Table :=
  if missingVars t = [] then
    .ok ⟨glmHeader, t.rows.map (convertRow t.header)⟩
  else
    .error ⟨missingVars t⟩

/-- Calendar date (proleptic Gregorian). -/
structure Date where
  year : Int
  month : Nat
  day : Nat
deriving DecidableEq, Repr

/-- Gregorian leap-year rule. -/
def isLeap (y : Int) : Bool := y % 4 == 0 && (y % 100 != 0 || y % 400 == 0)

/-- Length of month `m` (1–12). -/
def monthLength (leap : Bool) (m : Nat) : Nat :=
  match m with
  | 1 => 31
  | 2 => if leap then 29 else 28
  | 3 => 31
  | 4 => 30
  | 5 => 31
  | 6 => 30
  | 7 => 31
  | 8 => 31
  | 9 => 30
  | 10 => 31
  | 11 => 30
  | 12 => 31
  | _ => 0

/-- Days in the year strictly before month `m`. -/
def daysBeforeMonth (leap : Bool) (m : Nat) : Nat :=
  (List.range (m - 1)).foldl (fun acc i => acc + monthLength leap (i + 1)) 0

/-- Rata-die style day number of a date, so that differences count days. -/
def Date.toRataDie (d : Date) : Int :=
  365 * (d.year - 1) + (d.year - 1) / 4 - (d.year - 1) / 100 + (d.year - 1) / 400
    + (daysBeforeMonth (isLeap d.year) d.month : Int) + (d.day : Int)

/-- Calendar validity of a date. -/
def Date.dateValid (d : Date) : Prop :=
  1 ≤ d.month ∧ d.month ≤ 12 ∧ 1 ≤ d.day ∧ d.day ≤ monthLength (isLeap d.year) d.month

instance (d : Date) : Decidable d.dateValid :=
  inferInstanceAs (Decidable (1 ≤ d.month ∧ d.month ≤ 12 ∧ 1 ≤ d.day ∧
    d.day ≤ monthLength (isLeap d.year) d.month))

/-- Modelled from the spec: query parameters of the reanalysis-historical
adapter (§3, §4.2) — location, inclusive date range, requested variables,
optional timezone, hourly/daily flag. -/
structure Query where
  location : ℚ × ℚ
  date_range : Date × Date
  vars : List String
  timezone : Option String
  hourly : Bool
deriving DecidableEq, Repr

/-- Modelled from the spec: the reanalysis-historical provider's fixed
variable vocabulary (§4.2). -/
def historicalVocabulary : List String :=
  [varTemp, varRelHum, varPrecip, varCloud, "et0_fao_evapotranspiration",
   varWind, "winddirection_10m", "windgusts_10m", varShortwave,
   "direct_normal_irradiance"]

/-- Modelled from the spec: query-parameter invariants (§3) — valid dates in
order, coordinates in geographic bounds, variables inside the provider's
vocabulary. -/
def Query.valid (q : Query) (vocab : List String) : Prop :=
  (q.date_range.1).dateValid ∧ (q.date_range.2).dateValid ∧
  (q.date_range.1).toRataDie ≤ (q.date_range.2).toRataDie ∧
  -180 ≤ q.location.1 ∧ q.location.1 ≤ 180 ∧
  -90 ≤ q.location.2 ∧ q.location.2 ≤ 90 ∧
  ∀ v ∈ q.vars, v ∈ vocab

instance (q : Query) (vocab : List String) : Decidable (q.valid vocab) :=
  inferInstanceAs (Decidable ((q.date_range.1).dateValid ∧ (q.date_range.2).dateValid ∧
    (q.date_range.1).toRataDie ≤ (q.date_range.2).toRataDie ∧
    -180 ≤ q.location.1 ∧ q.location.1 ≤ 180 ∧
    -90 ≤ q.location.2 ∧ q.location.2 ≤ 90 ∧
    ∀ v ∈ q.vars, v ∈ vocab))

/-- Number of days in the (inclusive) requested date range. -/
def numDays (q : Query) : Int :=
  (q.date_range.2).toRataDie - (q.date_range.1).toRataDie + 1

/-- Number of timesteps in the requested range at the requested
resolution: 24 per day when hourly, 1 per day otherwise. -/
def numTimesteps (q : Query) : Nat :=
  ((if q.hourly then 24 else 1) * numDays q).toNat

/-- Modelled from the spec: a decoded provider JSON body (§4.2) — request
metadata plus parallel arrays, one per requested variable and a time
array. -/
structure Payload where
  metadata : List (String × String)
  times : List String
  series : List (String × List Dec)
deriving DecidableEq, Repr

/-- Modelled from the spec: the possible remote responses (§6) — a JSON body
of parallel arrays, an aggregator body of per-parameter timestamp maps, a
CSV-like body, or a non-success HTTP status. -/
inductive Response where
  | json (p : Payload)
  | powerJson (metadata : List (String × String))
      (params : List (String × List (String × Dec)))
  | csvText (t : Table)
  | httpError (status : Nat)
deriving DecidableEq, Repr

/-- Modelled from the spec: fetch-time errors (§7) — `ValidationError` for
bad query parameters, `ProviderError` for a non-success HTTP status or a
malformed response body. -/
inductive FetchError where
  | validation
  | providerStatus (status : Nat)
  | providerMalformed
deriving DecidableEq, Repr

/-- Zero decimal, default for lookups into ill-formed series. -/
def d0 : Dec := ⟨0, 0⟩

/-- Row `i` of the reshaped provider payload: the timestamp followed by the
`i`-th entry of every parallel array. -/
def payloadRow (p : Payload) (i : Nat) : List Cell :=
  .str (p.times.getD i ⟨[]⟩) :: p.series.map (fun s => .num ((s.2).getD i d0))

/-- Modelled from the spec: reshaping the provider's parallel arrays into
row-oriented table form (§4.2). -/
def payloadTable (p : Payload) : Table :=
  ⟨colTime :: p.series.map Prod.fst, (List.range p.times.length).map (payloadRow p)⟩

/-- Modelled from the spec: the reanalysis-historical adapter (§4.2) — the
stored query attributes plus the mutable `met_data` / `glm_met_data`
state, as constructed in the example notebook. -/
structure Historical where
  location : ℚ × ℚ
  date_range : Date × Date
  vars : List String
  met_data : Option MetData
  glm_met_data : Option Table
  timezone : Option String
  hourly : Bool
deriving DecidableEq, Repr

/-- The query parameters stored on a historical adapter. -/
def Historical.query (a : Historical) : Query :=
  ⟨a.location, a.date_range, a.vars, a.timezone, a.hourly⟩

/-- Constructor of the historical adapter from query parameters; both data
attributes start unset. -/
def Historical.init (q : Query) : Historical :=
  ⟨q.location, q.date_range, q.vars, none, none, q.timezone, q.hourly⟩

/-- Modelled from the spec: `fetch` (`get_variables`) of the historical
adapter (§4.1, §4.2, §7) — validates the stored query, issues one remote
call, and either assigns the decoded body into `met_data` or surfaces the
error with the adapter state unchanged. -/
def Historical.get_variables (a : Historical) (r : Response) :
    Historical × Option FetchError :=
  if a.query.valid historicalVocabulary then
    match r with
    | .json p => ({ a with met_data := some ⟨p.metadata, payloadTable p⟩ }, none)
    | .httpError s => (a, some (.providerStatus s))
    | _ => (a, some .providerMalformed)
  else
    (a, some .validation)

/-- Modelled from the spec: `convertToGlmFormat` (`convert_to_glm`) of the
historical adapter (§4.1, §4.2) — derives the canonical GLM table from the
populated `met_data`, or fails with a `ConversionError` naming the missing
required fields. -/
def Historical.convert_to_glm (a : Historical) : Historical × Option ConversionError :=
  match a.met_data with
  | none => (a, some ⟨glmRequiredVars⟩)
  | some md =>
    match convert_to_glm_table md.data with
    | .ok t => ({ a with glm_met_data := some t }, none)
    | .error e => (a, some e)

/-! ### CSV serialization of tables -/

/-- Base-10 digits of `n`, least significant first, zero-padded at the
most-significant end to length at least `e + 1`. -/
def padDigits (n e : Nat) : List Nat :=
  Nat.digits 10 n ++ List.replicate (e + 1 - (Nat.digits 10 n).length) 0

/-- Decimal rendering of the non-negative value `n / 10 ^ e`: the padded
digits, most significant first, with a point before the last `e` digits
when `e` is positive. -/
def printUnsigned (n e : Nat) : List Char :=
  if e = 0 then (padDigits n e).reverse.map Nat.digitChar
  else
    ((padDigits n e).reverse.map Nat.digitChar).take ((padDigits n e).length - e)
      ++ '.' :: ((padDigits n e).reverse.map Nat.digitChar).drop ((padDigits n e).length - e)

/-- Decimal rendering of a `Dec`, with a leading minus sign when negative. -/
def printDec (d : Dec) : List Char :=
  if d.mant < 0 then '-' :: printUnsigned d.mant.natAbs d.exp
  else printUnsigned d.mant.natAbs d.exp

/-- Numeric value of a decimal digit character, `none` otherwise. -/
def charDigit (c : Char) : Option Nat :=
  if '0' ≤ c ∧ c ≤ '9' then some (c.toNat - 48) else none

/-- Whether a character is a decimal digit. -/
def isDigitC (c : Char) : Bool := (charDigit c).isSome

/-- Parse a string of digit characters, most significant first. -/
def parseDigitList : List Char → Option (List Nat)
  | [] => some []
  | c :: cs =>
    match charDigit c, parseDigitList cs with
    | some d, some ds => some (d :: ds)
    | _, _ => none

/-- Split a character list at the first decimal point. -/
def splitAtDot : List Char → List Char × List Char
  | [] => ([], [])
  | c :: cs =>
    if c = '.' then ([], cs)
    else ((c :: (splitAtDot cs).1), (splitAtDot cs).2)

/-- Parse a non-negative decimal literal (integer digits, optional point,
fraction digits). -/
def parseUnsignedDec (cs : List Char) : Option Dec :=
  (parseDigitList (splitAtDot cs).1).bind (fun ds1 =>
    (parseDigitList (splitAtDot cs).2).map (fun ds2 =>
      ⟨(Nat.ofDigits 10 (ds1 ++ ds2).reverse : Nat), ds2.length⟩))

/-- Parse a decimal literal with an optional leading minus sign. -/
def parseDec (cs : List Char) : Option Dec :=
  match cs with
  | [] => none
  | c :: rest =>
    if c = '-' then (parseUnsignedDec rest).map (fun d => ⟨-d.mant, d.exp⟩)
    else parseUnsignedDec (c :: rest)

/-- CSV rendering of one cell: strings verbatim, numbers in decimal, null as
the empty field. -/
def cellChars : Cell → List Char
  | .str s => s.data
  | .num d => printDec d
  | .null => []

/-- CSV reading of one field: a numeric cell when the field parses as a
decimal literal, otherwise a string cell. -/
def parseCell (cs : List Char) : Cell :=
  match parseDec cs with
  | some d => .num d
  | none => .str ⟨cs⟩

/-- The character stream of a table's CSV serialization: records joined by
newlines, fields joined by commas, the header first. -/
def csvChars (t : Table) : List Char :=
  ['\n'].intercalate
    (((t.header.map String.data) :: t.rows.map (fun r => r.map cellChars)).map
      (fun line => [','].intercalate line))

/-- Modelled from the spec: CSV serialization of a table (§4.1, §6). -/
def writeCsv (t : Table) : String := ⟨csvChars t⟩

/-- Modelled from the spec: reading a CSV file back into a table (§8
round-trip property) — first record is the header, every later record a
row of parsed fields. -/
def read_glm_csv (s : String) : Option Table :=
  match s.data.splitOn '\n' with
  | [] => none
  | hdr :: rest =>
    some ⟨(hdr.splitOn ',').map (fun cs => (⟨cs⟩ : String)),
          rest.map (fun line => (line.splitOn ',').map parseCell)⟩

/-- Modelled from the spec: `IOError` — attempting to persist before fetch
or convert has populated the needed state (§7); filesystem failures are
out of scope (§1). -/
inductive IOFail where
  | notPopulated
deriving DecidableEq, Repr

/-- Modelled from the spec: `writeRaw` (`write_met`) of the historical
adapter (§4.1) — serializes the raw MetData table, failing when `met_data`
is unset. -/
def Historical.write_met (a : Historical) : Except IOFail String :=
  match a.met_data with
  | none => .error .notPopulated
  | some md => .ok (writeCsv md.data)

/-- Modelled from the spec: `writeGlmFormat` (`write_glm_met`) of the
historical adapter (§4.1) — serializes the canonical table to CSV, failing
when `glm_met_data` is unset; the compression flag wraps the same CSV in
an archive and is out of scope (§1). -/
def Historical.write_glm_met (a : Historical) (_zip_f : Bool) : Except IOFail String :=
  match a.glm_met_data with
  | none => .error .notPopulated
  | some t => .ok (writeCsv t)

/-! ### Canonical-table well-formedness -/

/-- Shape test for a GLM timestamp `YYYY-MM-DD HH:MM`: sixteen characters,
digits in the date and time positions, the fixed separators elsewhere. -/
def isGlmTimeB (cs : List Char) : Bool :=
  match cs with
  | [y1, y2, y3, y4, c1, o1, o2, c2, d1, d2, c3, h1, h2, c4, n1, n2] =>
    isDigitC y1 && isDigitC y2 && isDigitC y3 && isDigitC y4 &&
    c1 = '-' && isDigitC o1 && isDigitC o2 && c2 = '-' &&
    isDigitC d1 && isDigitC d2 && c3 = ' ' &&
    isDigitC h1 && isDigitC h2 && c4 = ':' && isDigitC n1 && isDigitC n2
  | _ => false

/-- Whether a cell is a well-formed GLM timestamp cell. -/
def cellIsTime : Cell → Bool
  | .str s => isGlmTimeB s.data
  | _ => false

/-- Whether a cell is numeric. -/
def cellIsNum : Cell → Bool
  | .num _ => true
  | _ => false

/-- A cell admissible in a canonical GLM row. -/
def cellOk (c : Cell) : Bool := cellIsTime c || cellIsNum c

/-- A canonical GLM row: a well-formed timestamp followed by six numeric
observations. -/
def rowCanonical (r : List Cell) : Bool :=
  r.length == 7 && cellIsTime (r.getD 0 junkCell) && (r.drop 1).all cellIsNum

/-- The ten decimal digit characters. -/
def digitCharList : List Char :=
  ['0', '1', '2', '3', '4', '5', '6', '7', '8', '9']

/-- A canonical GLM table: the fixed seven-column header and canonical
rows. -/
def tableCanonical (t : Table) : Bool :=
  t.header == glmHeader && t.rows.all rowCanonical

/-! ### Recorded notebook data

The example notebook records the raw rows returned by the
reanalysis-historical provider for location
(116.69115540712589, -34.22581232495377), dates 2020-01-01 – 2020-01-31,
hourly, with the ten documented variables, together with the converted GLM
rows.  The first five raw rows are reproduced here as concrete inputs. -/

/-- Raw header of the recorded notebook fetch (eleven columns). -/
def nbHeader : List String :=
  [colTime, varTemp, varRelHum, varPrecip, varCloud, "et0_fao_evapotranspiration",
   varWind, "winddirection_10m", "windgusts_10m", varShortwave,
   "direct_normal_irradiance"]

/-- Recorded raw row 0 (timestamp 2020-01-01T00:00). -/
def nbRow0 : List Cell :=
  [.str ("2020-01-01T00:00"), .num ⟨171, 1⟩, .num ⟨69, 0⟩, .num ⟨0, 1⟩,
   .num ⟨27, 0⟩, .num ⟨3, 2⟩, .num ⟨286, 2⟩, .num ⟨205, 0⟩, .num ⟨62, 1⟩,
   .num ⟨0, 1⟩, .num ⟨0, 1⟩]

/-- Recorded raw row 1 (timestamp 2020-01-01T01:00). -/
def nbRow1 : List Cell :=
  [.str ("2020-01-01T01:00"), .num ⟨162, 1⟩, .num ⟨75, 0⟩, .num ⟨0, 1⟩,
   .num ⟨22, 0⟩, .num ⟨1, 2⟩, .num ⟨194, 2⟩, .num ⟨192, 0⟩, .num ⟨53, 1⟩,
   .num ⟨0, 1⟩, .num ⟨0, 1⟩]

/-- Recorded raw row 2 (timestamp 2020-01-01T02:00). -/
def nbRow2 : List Cell :=
  [.str ("2020-01-01T02:00"), .num ⟨154, 1⟩, .num ⟨80, 0⟩, .num ⟨0, 1⟩,
   .num ⟨5, 0⟩, .num ⟨0, 2⟩, .num ⟨133, 2⟩, .num ⟨167, 0⟩, .num ⟨37, 1⟩,
   .num ⟨0, 1⟩, .num ⟨0, 1⟩]

/-- Recorded raw row 3 (timestamp 2020-01-01T03:00). -/
def nbRow3 : List Cell :=
  [.str ("2020-01-01T03:00"), .num ⟨146, 1⟩, .num ⟨85, 0⟩, .num ⟨0, 1⟩,
   .num ⟨0, 0⟩, .num ⟨0, 2⟩, .num ⟨130, 2⟩, .num ⟨113, 0⟩, .num ⟨26, 1⟩,
   .num ⟨0, 1⟩, .num ⟨0, 1⟩]

/-- Recorded raw row 4 (timestamp 2020-01-01T04:00). -/
def nbRow4 : List Cell :=
  [.str ("2020-01-01T04:00"), .num ⟨141, 1⟩, .num ⟨88, 0⟩, .num ⟨0, 1⟩,
   .num ⟨0, 0⟩, .num ⟨0, 2⟩, .num ⟨108, 2⟩, .num ⟨112, 0⟩, .num ⟨20, 1⟩,
   .num ⟨0, 1⟩, .num ⟨0, 1⟩]

/-- The recorded raw table. -/
def nbTable : Table := ⟨nbHeader, [nbRow0, nbRow1, nbRow2, nbRow3, nbRow4]⟩

/-- The recorded raw table wrapped as MetData. -/
def nbMet : MetData := ⟨[], nbTable⟩

/-- The canonical table derived from the recorded raw table. -/
def nbGlm : Table := ⟨glmHeader, nbTable.rows.map (convertRow nbTable.header)⟩

/-- MetData fetched from a variable subset omitting cloud cover. -/
def mdNoCloud : MetData :=
  ⟨[], ⟨[colTime, varTemp, varRelHum, varPrecip, varWind, varShortwave], []⟩⟩

/-- Adapter holding `mdNoCloud`, for the missing-field boundary. -/
def adapterNoCloud : Historical :=
  ⟨(0, 0), (⟨2020, 1, 1⟩, ⟨2020, 1, 1⟩),
   [varTemp, varRelHum, varPrecip, varWind, varShortwave],
   some mdNoCloud, none, none, true⟩

/-- A single-day hourly query near the notebook's location (coordinates
rounded to integers so that every instance decision is kernel-reducible). -/
def wAdapter : Historical :=
  ⟨(116, -34),
   (⟨2020, 1, 1⟩, ⟨2020, 1, 1⟩),
   [varTemp, varRelHum, varPrecip, varCloud, varWind, varShortwave],
   none, none, none, true⟩

/-- A well-formed single-day hourly provider payload: 24 timesteps for each
of the six GLM-required variables. -/
def wPayload : Payload :=
  ⟨[], List.replicate 24 ("2020-01-01T00:00"),
   glmRequiredVars.map (fun v => (v, List.replicate 24 ⟨50, 0⟩))⟩

/-- Adapter state after fetching `wPayload` into `wAdapter`. -/
def w8b : Historical := (wAdapter.get_variables (.json wPayload)).1

/-- Adapter state after converting the fetched data. -/
def w8c : Historical := (w8b.convert_to_glm).1

/-- The canonical table produced by the single-day pipeline. -/
def w8t : Table := (w8c.glm_met_data).getD ⟨[], []⟩

/-- Characters admissible in the date part `YYYY-MM-DD` of a provider
timestamp. -/
def dateChars : List Char :=
  ['0', '1', '2', '3', '4', '5', '6', '7', '8', '9', '-']

/-- Characters admissible in the time part `HH:MM` of a provider
timestamp. -/
def timeChars : List Char :=
  ['0', '1', '2', '3', '4', '5', '6', '7', '8', '9', ':']

/-- A one-row canonical GLM table, the notebook's first converted row. -/
def wGlmTable : Table :=
  ⟨glmHeader,
   [[.str ("2020-01-01 00:00"), .num ⟨0, 1⟩, .num ⟨27, 2⟩, .num ⟨171, 1⟩,
     .num ⟨69, 0⟩, .num ⟨286, 2⟩, .num ⟨0, 1⟩]]⟩

/-- An adapter holding `wGlmTable` as its converted data. -/
def wGlmAdapter : Historical :=
  ⟨(0, 0), (⟨2020, 1, 1⟩, ⟨2020, 1, 1⟩), [], none, some wGlmTable, none, true⟩

/-! ### The base adapter contract and the other provider adapters -/

/-- Modelled from the spec: the uniform operation set of the base adapter
contract (§4.1, §6) — a constructor from query parameters plus `fetch`
(`get_variables`), `writeRaw` (`write_met`), `convertToGlmFormat`
(`convert_to_glm`) and `writeGlmFormat` (`write_glm_met`). -/
structure GlmMetOps (A : Type) where
  init : ℚ × ℚ → Date × Date → List String → A
  get_variables : A → Response → A × Option FetchError
  write_met : A → Except IOFail String
  convert_to_glm : A → A × Option ConversionError
  write_glm_met : A → Bool → Except IOFail String

/-- Modelled from the spec: the reanalysis climate-projection adapter
(§4.3) — same contract shape, daily resolution, plus a model-selection
parameter. -/
structure Climate where
  location : ℚ × ℚ
  date_range : Date × Date
  vars : List String
  climate_model : String
  met_data : Option MetData
  glm_met_data : Option Table
deriving DecidableEq, Repr

/-- Modelled from the spec: the climate-projection provider's vocabulary
(§4.3) — cloud-cover and radiation fields are absent from it. -/
def climateVocabulary : List String :=
  [varTemp, varRelHum, varPrecip, varWind]

/-- Default climate-model selection; the spec names no concrete model
identifiers (§4.3). -/
def climateDefaultModel : String := "default_model"

/-- The query parameters stored on a climate adapter (daily resolution). -/
def Climate.query (a : Climate) : Query :=
  ⟨a.location, a.date_range, a.vars, none, false⟩

/-- Constructor of the climate adapter from query parameters. -/
def Climate.init (loc : ℚ × ℚ) (dr : Date × Date) (vs : List String) : Climate :=
  ⟨loc, dr, vs, climateDefaultModel, none, none⟩

/-- Modelled from the spec: `fetch` of the climate adapter (§4.3) — as the
historical adapter but validated against the climate vocabulary. -/
def Climate.get_variables (a : Climate) (r : Response) : Climate × Option FetchError :=
  if a.query.valid climateVocabulary then
    match r with
    | .json p => ({ a with met_data := some ⟨p.metadata, payloadTable p⟩ }, none)
    | .httpError s => (a, some (.providerStatus s))
    | _ => (a, some .providerMalformed)
  else
    (a, some .validation)

/-- Modelled from the spec: `convertToGlmFormat` of the climate adapter
(§4.3) — normalization mirrors §4.2 on daily aggregates; absent
cloud-cover/radiation fields yield a `ConversionError` listing them. -/
def Climate.convert_to_glm (a : Climate) : Climate × Option ConversionError :=
  match a.met_data with
  | none => (a, some ⟨glmRequiredVars⟩)
  | some md =>
    match convert_to_glm_table md.data with
    | .ok t => ({ a with glm_met_data := some t }, none)
    | .error e => (a, some e)

/-- Raw-data persistence (`writeRaw`) of the climate adapter. -/
def Climate.write_met (a : Climate) : Except IOFail String :=
  match a.met_data with
  | none => .error .notPopulated
  | some md => .ok (writeCsv md.data)

/-- Canonical-table persistence (`writeGlmFormat`) of the climate adapter. -/
def Climate.write_glm_met (a : Climate) (_zip_f : Bool) : Except IOFail String :=
  match a.glm_met_data with
  | none => .error .notPopulated
  | some t => .ok (writeCsv t)

/-- Modelled from the spec: the solar/meteorological aggregator adapter
(§4.4) — location, date range, optional explicit parameter list. -/
structure Power where
  location : ℚ × ℚ
  date_range : Date × Date
  parameters : Option (List String)
  met_data : Option MetData
  glm_met_data : Option Table
deriving DecidableEq, Repr

/-- Modelled from the spec: the aggregator's provider-defined default
parameter set covering the fields GLM needs (§4.4); the concrete codes are
provider documentation, not fixed by the spec. -/
def powerDefaultParams : List String :=
  ["SW_DOWN", "CLOUD_AMT", "T2M", "RH2M", "WS2M", "PRECTOT"]

/-- Modelled from the spec: the aggregator's documented sentinel fill value
for missing observations (§4.4). -/
def powerFillValue : Dec := ⟨-999, 0⟩

/-- The parameter list effectively requested: the stored list, or the
provider-defined default set when unset (§4.4). -/
def Power.effParams (a : Power) : List String :=
  a.parameters.getD powerDefaultParams

/-- The query parameters stored on an aggregator adapter (hourly). -/
def Power.query (a : Power) : Query :=
  ⟨a.location, a.date_range, a.effParams, none, true⟩

/-- Constructor of the aggregator adapter from query parameters; an empty
variable list selects the provider default set. -/
def Power.init (loc : ℚ × ℚ) (dr : Date × Date) (vs : List String) : Power :=
  ⟨loc, dr, if vs = [] then none else some vs, none, none⟩

/-- Timestamp keys shared by every parameter of an aggregator response. -/
def powerTimes (params : List (String × List (String × Dec))) : List String :=
  match params with
  | [] => []
  | p :: _ =>
    (p.2.map Prod.fst).filter (fun ts => params.all (fun q => ((q.2).lookup ts).isSome))

/-- Modelled from the spec: pivoting the aggregator's dict-of-dicts response
into row-oriented form, aligned on shared timestamp keys, with the
documented sentinel fill value read as a null marker (§4.4). -/
def powerPivot (params : List (String × List (String × Dec))) : Table :=
  ⟨colTime :: params.map Prod.fst,
   (powerTimes params).map (fun ts =>
     .str ts :: params.map (fun p =>
       match (p.2).lookup ts with
       | none => .null
       | some v => if v = powerFillValue then .null else .num v))⟩

/-- Modelled from the spec: `fetch` of the aggregator adapter (§4.4) — one
point-query call whose response is the dict-of-dicts body. -/
def Power.get_variables (a : Power) (r : Response) : Power × Option FetchError :=
  if a.query.valid a.effParams then
    match r with
    | .powerJson meta params =>
      ({ a with met_data := some ⟨meta, powerPivot params⟩ }, none)
    | .httpError s => (a, some (.providerStatus s))
    | _ => (a, some .providerMalformed)
  else
    (a, some .validation)

/-- Modelled from the spec: the aggregator's per-row normalization (§4.4) —
columns renamed into the canonical schema; the provider-documented unit
conversion constants are not fixed by the spec, so fields pass through with
the cloud-amount percent rescale. -/
def powerConvertRow (hdr : List String) (row : List Cell) : List Cell :=
  [(rowCell hdr row colTime).reformat,
   rowCell hdr row ("SW_DOWN"),
   (rowCell hdr row ("CLOUD_AMT")).div100,
   rowCell hdr row ("T2M"),
   rowCell hdr row ("RH2M"),
   rowCell hdr row ("WS2M"),
   rowCell hdr row ("PRECTOT")]

/-- Aggregator source parameters absent from a table's header. -/
def powerMissingVars (t : Table) : List String :=
  powerDefaultParams.filter (fun v => ! t.header.contains v)

/-- Modelled from the spec: `convertToGlmFormat` of the aggregator adapter
(§4.4). -/
def Power.convert_to_glm (a : Power) : Power × Option ConversionError :=
  match a.met_data with
  | none => (a, some ⟨powerDefaultParams⟩)
  | some md =>
    if powerMissingVars md.data = [] then
      let t : Table := ⟨glmHeader, md.data.rows.map (powerConvertRow md.data.header)⟩
      ({ a with glm_met_data := some t }, none)
    else
      (a, some ⟨powerMissingVars md.data⟩)

/-- Raw-data persistence (`writeRaw`) of the aggregator adapter. -/
def Power.write_met (a : Power) : Except IOFail String :=
  match a.met_data with
  | none => .error .notPopulated
  | some md => .ok (writeCsv md.data)

/-- Canonical-table persistence (`writeGlmFormat`) of the aggregator adapter. -/
def Power.write_glm_met (a : Power) (_zip_f : Bool) : Except IOFail String :=
  match a.glm_met_data with
  | none => .error .notPopulated
  | some t => .ok (writeCsv t)

/-- Modelled from the spec: the station-archive adapter (§4.5) — a
station/location identifier or coordinate pair and a date range, daily
resolution. -/
structure Silo where
  station : Option Nat
  location : ℚ × ℚ
  date_range : Date × Date
  vars : List String
  met_data : Option MetData
  glm_met_data : Option Table
deriving DecidableEq, Repr

/-- Modelled from the spec: the station-archive vocabulary (§4.5); daily
observation fields, concrete codes provider documentation. -/
def siloVocabulary : List String :=
  [varTemp, varRelHum, varPrecip, varWind, varShortwave, varCloud]

/-- The query parameters stored on a station-archive adapter (daily). -/
def Silo.query (a : Silo) : Query :=
  ⟨a.location, a.date_range, a.vars, none, false⟩

/-- Constructor of the station-archive adapter from query parameters. -/
def Silo.init (loc : ℚ × ℚ) (dr : Date × Date) (vs : List String) : Silo :=
  ⟨none, loc, dr, vs, none, none⟩

/-- Modelled from the spec: `fetch` of the station-archive adapter (§4.5) —
the CSV-like response body parsed directly as the raw table. -/
def Silo.get_variables (a : Silo) (r : Response) : Silo × Option FetchError :=
  if a.query.valid siloVocabulary then
    match r with
    | .csvText t => ({ a with met_data := some ⟨[], t⟩ }, none)
    | .httpError s => (a, some (.providerStatus s))
    | _ => (a, some .providerMalformed)
  else
    (a, some .validation)

/-- Modelled from the spec: `convertToGlmFormat` of the station-archive
adapter (§4.5) — daily-only normalization into the canonical schema; the
daily-to-hourly disaggregation rule is an open question of the spec (§9)
and is not modelled. -/
def Silo.convert_to_glm (a : Silo) : Silo × Option ConversionError :=
  match a.met_data with
  | none => (a, some ⟨glmRequiredVars⟩)
  | some md =>
    match convert_to_glm_table md.data with
    | .ok t => ({ a with glm_met_data := some t }, none)
    | .error e => (a, some e)

/-- Raw-data persistence (`writeRaw`) of the station-archive adapter. -/
def Silo.write_met (a : Silo) : Except IOFail String :=
  match a.met_data with
  | none => .error .notPopulated
  | some md => .ok (writeCsv md.data)

/-- Canonical-table persistence (`writeGlmFormat`) of the station-archive adapter. -/
def Silo.write_glm_met (a : Silo) (_zip_f : Bool) : Except IOFail String :=
  match a.glm_met_data with
  | none => .error .notPopulated
  | some t => .ok (writeCsv t)

/-- The four provider adapters of the package. -/
inductive Provider where
  | historical
  | climate
  | nasaPower
  | silo
deriving DecidableEq, Repr

/-- The adapter state type of each provider. -/
def stateOf : Provider → Type
  | .historical => Historical
  | .climate => Climate
  | .nasaPower => Power
  | .silo => Silo

/-- Every provider adapter's implementation of the base contract. -/
def opsOf : (p : Provider) → GlmMetOps (stateOf p)
  | .historical =>
    ⟨fun loc dr vs => Historical.init ⟨loc, dr, vs, none, true⟩,
     Historical.get_variables, Historical.write_met,
     Historical.convert_to_glm, Historical.write_glm_met⟩
  | .climate =>
    ⟨Climate.init, Climate.get_variables, Climate.write_met,
     Climate.convert_to_glm, Climate.write_glm_met⟩
  | .nasaPower =>
    ⟨Power.init, Power.get_variables, Power.write_met,
     Power.convert_to_glm, Power.write_glm_met⟩
  | .silo =>
    ⟨Silo.init, Silo.get_variables, Silo.write_met,
     Silo.convert_to_glm, Silo.write_glm_met⟩

/-- The provider-independent caller lifecycle: construct, fetch, convert,
persist — written against the base contract only. -/
def runPipeline {A : Type} (ops : GlmMetOps A) (loc : ℚ × ℚ) (dr : Date × Date)
    (vs : List String) (r : Response) : Except IOFail String :=
  ops.write_glm_met ((ops.convert_to_glm ((ops.get_variables (ops.init loc dr vs) r)).1).1) false

/-! ### Witness data for the non-historical adapters -/

/-- MetData lacking the aggregator's cloud-amount parameter. -/
def mdNoCloudP : MetData :=
  ⟨[], ⟨[colTime, "SW_DOWN", "T2M", "RH2M", "WS2M", "PRECTOT"], []⟩⟩

/-- Climate adapter holding `mdNoCloud`. -/
def climateNoCloud : Climate :=
  ⟨(0, 0), (⟨2020, 1, 1⟩, ⟨2020, 1, 1⟩), [varTemp], climateDefaultModel,
   some mdNoCloud, none⟩

/-- Aggregator adapter holding `mdNoCloudP`. -/
def powerNoCloud : Power :=
  ⟨(0, 0), (⟨2020, 1, 1⟩, ⟨2020, 1, 1⟩), none, some mdNoCloudP, none⟩

/-- Station-archive adapter holding `mdNoCloud`. -/
def siloNoCloud : Silo :=
  ⟨none, (0, 0), (⟨2020, 1, 1⟩, ⟨2020, 1, 1⟩), [varTemp], some mdNoCloud, none⟩

/-- A single-day daily climate query. -/
def wClimateAdapter : Climate :=
  ⟨(116, -34), (⟨2020, 1, 1⟩, ⟨2020, 1, 1⟩), [varTemp], climateDefaultModel,
   none, none⟩

/-- A well-formed single-day daily provider payload: one timestep for each
GLM-required variable. -/
def wClimatePayload : Payload :=
  ⟨[], [("2020-01-01")], glmRequiredVars.map (fun v => (v, [⟨50, 0⟩]))⟩

/-- Climate adapter state after fetching `wClimatePayload`. -/
def w8bC : Climate := (wClimateAdapter.get_variables (.json wClimatePayload)).1

/-- Climate adapter state after converting. -/
def w8cC : Climate := (w8bC.convert_to_glm).1

/-- The canonical table of the single-day climate pipeline. -/
def w8tC : Table := (w8cC.glm_met_data).getD ⟨[], []⟩

/-- Twenty-four distinct one-character timestamp keys. -/
def wKeys : List String := (List.range 24).map (fun i => ⟨[Char.ofNat (65 + i)]⟩)

/-- An aggregator response carrying all default parameters on the same 24
timestamp keys. -/
def wPowerParams : List (String × List (String × Dec)) :=
  powerDefaultParams.map (fun v => (v, wKeys.map (fun k => (k, (⟨50, 0⟩ : Dec)))))

/-- A single-day hourly aggregator query with the default parameter set. -/
def wPowerAdapter : Power :=
  ⟨(116, -34), (⟨2020, 1, 1⟩, ⟨2020, 1, 1⟩), none, none, none⟩

/-- Aggregator adapter state after fetching `wPowerParams`. -/
def w8bP : Power := (wPowerAdapter.get_variables (.powerJson [] wPowerParams)).1

/-- Aggregator adapter state after converting. -/
def w8cP : Power := (w8bP.convert_to_glm).1

/-- The canonical table of the single-day aggregator pipeline. -/
def w8tP : Table := (w8cP.glm_met_data).getD ⟨[], []⟩

/-- A single-day daily station-archive query. -/
def wSiloAdapter : Silo :=
  ⟨none, (116, -34), (⟨2020, 1, 1⟩, ⟨2020, 1, 1⟩), [varTemp], none, none⟩

/-- A one-row daily station-archive response table carrying the
GLM-required variables. -/
def wSiloRaw : Table :=
  ⟨colTime :: glmRequiredVars,
   [[.str ("2020-01-01"), .num ⟨0, 1⟩, .num ⟨50, 0⟩, .num ⟨171, 1⟩,
     .num ⟨69, 0⟩, .num ⟨286, 2⟩, .num ⟨0, 1⟩]]⟩

/-- Station-archive adapter state after fetching `wSiloRaw`. -/
def w8bS : Silo := (wSiloAdapter.get_variables (.csvText wSiloRaw)).1

/-- Station-archive adapter state after converting. -/
def w8cS : Silo := (w8bS.convert_to_glm).1

/-- The canonical table of the single-day station-archive pipeline. -/
def w8tS : Table := (w8cS.glm_met_data).getD ⟨[], []⟩

/-! ## Helper lemmas -/

/-- Characterization of a successful table conversion. -/
theorem convert_ok_iff {t u : Table} :
    convert_to_glm_table t = .ok u ↔
      missingVars t = [] ∧ u = ⟨glmHeader, t.rows.map (convertRow t.header)⟩ := by
  unfold convert_to_glm_table
  split
  · rename_i h
    simp only [Except.ok.injEq]
    exact ⟨fun he => ⟨h, he.symm⟩, fun he => he.2.symm⟩
  · rename_i h
    simp only [reduceCtorEq, false_iff, not_and]
    intro hc
    exact absurd hc h

/-- Value of the exact division of a decimal by 100. -/
theorem Dec.div100_toRat (d : Dec) : (d.div100).toRat = d.toRat / 100 := by
  unfold Dec.div100 Dec.toRat
  rw [pow_add]
  push_cast
  ring

/-- A successful fetch happened on a valid query with a JSON body and
assigned the reshaped payload into `met_data`. -/
theorem get_variables_ok {a b : Historical} {r : Response}
    (h : a.get_variables r = (b, none)) :
    a.query.valid historicalVocabulary ∧
      ∃ p : Payload, r = .json p ∧
        b = { a with met_data := some ⟨p.metadata, payloadTable p⟩ } := by
  unfold Historical.get_variables at h
  split at h
  · rename_i hq
    cases r with
    | json p =>
      refine ⟨hq, p, rfl, ?_⟩
      exact (Prod.mk.injEq .. ▸ h).1.symm
    | powerJson meta params => simp at h
    | csvText t => simp at h
    | httpError s => simp at h
  · simp at h

/-- A successful conversion happened on populated `met_data` and assigned
the canonical table into `glm_met_data`. -/
theorem convert_to_glm_ok {a c : Historical}
    (h : a.convert_to_glm = (c, none)) :
    ∃ md u, a.met_data = some md ∧ convert_to_glm_table md.data = .ok u ∧
      c = { a with glm_met_data := some u } := by
  unfold Historical.convert_to_glm at h
  split at h
  · simp at h
  · rename_i md hmd
    split at h
    · rename_i u hu
      exact ⟨md, u, hmd, hu, (Prod.mk.injEq .. ▸ h).1.symm⟩
    · simp at h

/-- A successful climate fetch happened on a valid query with a JSON body
and assigned the reshaped payload into `met_data`. -/
theorem climate_get_variables_ok {a b : Climate} {r : Response}
    (h : a.get_variables r = (b, none)) :
    a.query.valid climateVocabulary ∧
      ∃ p : Payload, r = .json p ∧
        b = { a with met_data := some ⟨p.metadata, payloadTable p⟩ } := by
  unfold Climate.get_variables at h
  split at h
  · rename_i hq
    cases r with
    | json p =>
      refine ⟨hq, p, rfl, ?_⟩
      exact (Prod.mk.injEq .. ▸ h).1.symm
    | powerJson meta params => simp at h
    | csvText t => simp at h
    | httpError s => simp at h
  · simp at h

/-- A successful climate conversion happened on populated `met_data` and
assigned the canonical table into `glm_met_data`. -/
theorem climate_convert_ok {a c : Climate}
    (h : a.convert_to_glm = (c, none)) :
    ∃ md u, a.met_data = some md ∧ convert_to_glm_table md.data = .ok u ∧
      c = { a with glm_met_data := some u } := by
  unfold Climate.convert_to_glm at h
  split at h
  · simp at h
  · rename_i md hmd
    split at h
    · rename_i u hu
      exact ⟨md, u, hmd, hu, (Prod.mk.injEq .. ▸ h).1.symm⟩
    · simp at h

/-- A successful aggregator fetch happened on a valid query with a
dict-of-dicts body and assigned the pivoted table into `met_data`. -/
theorem power_get_variables_ok {a b : Power} {r : Response}
    (h : a.get_variables r = (b, none)) :
    a.query.valid a.effParams ∧
      ∃ meta params, r = .powerJson meta params ∧
        b = { a with met_data := some ⟨meta, powerPivot params⟩ } := by
  unfold Power.get_variables at h
  split at h
  · rename_i hq
    cases r with
    | json p => simp at h
    | powerJson meta params =>
      refine ⟨hq, meta, params, rfl, ?_⟩
      exact (Prod.mk.injEq .. ▸ h).1.symm
    | csvText t => simp at h
    | httpError s => simp at h
  · simp at h

/-- A successful aggregator conversion happened on populated `met_data`
with no missing parameter and assigned the remapped table into
`glm_met_data`. -/
theorem power_convert_ok {a c : Power}
    (h : a.convert_to_glm = (c, none)) :
    ∃ md t, a.met_data = some md ∧ powerMissingVars md.data = [] ∧
      t = (⟨glmHeader, md.data.rows.map (powerConvertRow md.data.header)⟩ : Table) ∧
      c = { a with glm_met_data := some t } := by
  unfold Power.convert_to_glm at h
  split at h
  · simp at h
  · rename_i md hmd
    split at h
    · rename_i hmiss
      exact ⟨md, _, hmd, hmiss, rfl, (Prod.mk.injEq .. ▸ h).1.symm⟩
    · simp at h

/-- A successful station-archive fetch happened on a valid query with a
CSV-like body and assigned the parsed table into `met_data`. -/
theorem silo_get_variables_ok {a b : Silo} {r : Response}
    (h : a.get_variables r = (b, none)) :
    a.query.valid siloVocabulary ∧
      ∃ raw : Table, r = .csvText raw ∧
        b = { a with met_data := some ⟨[], raw⟩ } := by
  unfold Silo.get_variables at h
  split at h
  · rename_i hq
    cases r with
    | json p => simp at h
    | powerJson meta params => simp at h
    | csvText t =>
      refine ⟨hq, t, rfl, ?_⟩
      exact (Prod.mk.injEq .. ▸ h).1.symm
    | httpError s => simp at h
  · simp at h

/-- A successful station-archive conversion happened on populated
`met_data` and assigned the canonical table into `glm_met_data`. -/
theorem silo_convert_ok {a c : Silo}
    (h : a.convert_to_glm = (c, none)) :
    ∃ md u, a.met_data = some md ∧ convert_to_glm_table md.data = .ok u ∧
      c = { a with glm_met_data := some u } := by
  unfold Silo.convert_to_glm at h
  split at h
  · simp at h
  · rename_i md hmd
    split at h
    · rename_i u hu
      exact ⟨md, u, hmd, hu, (Prod.mk.injEq .. ▸ h).1.symm⟩
    · simp at h

/-- A one-day inclusive range spans exactly one day. -/
theorem numDays_single (q : Query) (h : q.date_range.1 = q.date_range.2) :
    numDays q = 1 := by
  unfold numDays
  rw [h]
  ring

/-- Looking a key up in the zip of the key and value projections of a
list. -/
theorem lookup_zip_maps {β γ : Type} (v : String) (l : List (String × β))
    (g : String × β → γ) :
    (List.zipWith Prod.mk (l.map Prod.fst) (l.map g)).lookup v =
      (l.find? (fun s => v == s.1)).map g := by
  induction l with
  | nil => rfl
  | cons x xs ih =>
    simp only [List.map_cons, List.zipWith_cons_cons, List.lookup, List.find?]
    cases hv : (v == x.1) with
    | true => rfl
    | false => exact ih

/-- Column selection on a reshaped payload row: a non-time column is served
by the first series entry carrying that variable name. -/
theorem rowCell_payload (p : Payload) (i : Nat) (v : String) (hv : v ≠ colTime) :
    rowCell (payloadTable p).header (payloadRow p i) v =
      ((p.series.find? (fun s => v == s.1)).map
        (fun s => Cell.num ((s.2).getD i d0))).getD junkCell := by
  have hfalse : (v == colTime) = false := by
    simpa using hv
  unfold rowCell payloadTable payloadRow
  simp only [List.zip_cons_cons, List.lookup, hfalse]
  rw [lookup_zip_maps]

/-- When a required variable is present in a table's header after a
successful conversion check. -/
theorem missing_nil_mem {t : Table} (h : missingVars t = []) :
    ∀ v ∈ glmRequiredVars, v ∈ t.header := by
  intro v hv
  have := List.filter_eq_nil_iff.mp h v hv
  simpa using this

/-! ## Claims -/

/-- C4: for every adapter, calling `convertToGlmFormat` twice on the same
fetched MetData produces an identical result both times — the second call
returns exactly the first call's adapter state and outcome. -/
theorem convert_to_glm_idem :
    (∀ a : Historical, (a.convert_to_glm.1).convert_to_glm = a.convert_to_glm) ∧
    (∀ a : Climate, (a.convert_to_glm.1).convert_to_glm = a.convert_to_glm) ∧
    (∀ a : Power, (a.convert_to_glm.1).convert_to_glm = a.convert_to_glm) ∧
    (∀ a : Silo, (a.convert_to_glm.1).convert_to_glm = a.convert_to_glm) := by
  refine ⟨fun a => ?_, fun a => ?_, fun a => ?_, fun a => ?_⟩
  · unfold Historical.convert_to_glm
    cases hmd : a.met_data with
    | none => simp [hmd]
    | some md =>
      cases hc : convert_to_glm_table md.data with
      | ok t => simp [hmd, hc]
      | error e => simp [hmd, hc]
  · unfold Climate.convert_to_glm
    cases hmd : a.met_data with
    | none => simp [hmd]
    | some md =>
      cases hc : convert_to_glm_table md.data with
      | ok t => simp [hmd, hc]
      | error e => simp [hmd, hc]
  · unfold Power.convert_to_glm
    cases hmd : a.met_data with
    | none => simp [hmd]
    | some md =>
      by_cases hmiss : powerMissingVars md.data = []
      · simp [hmd, hmiss]
      · simp [hmd, hmiss]
  · unfold Silo.convert_to_glm
    cases hmd : a.met_data with
    | none => simp [hmd]
    | some md =>
      cases hc : convert_to_glm_table md.data with
      | ok t => simp [hmd, hc]
      | error e => simp [hmd, hc]

/-- C3: for every adapter, `fetch` either fully populates the adapter's
MetData from the decoded response with no error, or reports a
`ValidationError` / `ProviderError` and returns the adapter state
unchanged — no partial state. -/
theorem get_variables_all_or_nothing :
    (∀ (a : Historical) (r : Response),
      ((a.get_variables r).2 = none ∧
        ∃ p : Payload, r = .json p ∧
          (a.get_variables r).1 =
            { a with met_data := some ⟨p.metadata, payloadTable p⟩ }) ∨
      ((a.get_variables r).2 ≠ none ∧ (a.get_variables r).1 = a)) ∧
    (∀ (a : Climate) (r : Response),
      ((a.get_variables r).2 = none ∧
        ∃ p : Payload, r = .json p ∧
          (a.get_variables r).1 =
            { a with met_data := some ⟨p.metadata, payloadTable p⟩ }) ∨
      ((a.get_variables r).2 ≠ none ∧ (a.get_variables r).1 = a)) ∧
    (∀ (a : Power) (r : Response),
      ((a.get_variables r).2 = none ∧
        ∃ meta params, r = .powerJson meta params ∧
          (a.get_variables r).1 =
            { a with met_data := some ⟨meta, powerPivot params⟩ }) ∨
      ((a.get_variables r).2 ≠ none ∧ (a.get_variables r).1 = a)) ∧
    (∀ (a : Silo) (r : Response),
      ((a.get_variables r).2 = none ∧
        ∃ raw : Table, r = .csvText raw ∧
          (a.get_variables r).1 = { a with met_data := some ⟨[], raw⟩ }) ∨
      ((a.get_variables r).2 ≠ none ∧ (a.get_variables r).1 = a)) := by
  refine ⟨fun a r => ?_, fun a r => ?_, fun a r => ?_, fun a r => ?_⟩
  · unfold Historical.get_variables
    by_cases hq : a.query.valid historicalVocabulary
    · cases r with
      | json p =>
        left
        exact ⟨by simp [hq], p, rfl, by simp [hq]⟩
      | powerJson meta params => right; simp [hq]
      | csvText t => right; simp [hq]
      | httpError s => right; simp [hq]
    · right
      simp [hq]
  · unfold Climate.get_variables
    by_cases hq : a.query.valid climateVocabulary
    · cases r with
      | json p =>
        left
        exact ⟨by simp [hq], p, rfl, by simp [hq]⟩
      | powerJson meta params => right; simp [hq]
      | csvText t => right; simp [hq]
      | httpError s => right; simp [hq]
    · right
      simp [hq]
  · unfold Power.get_variables
    by_cases hq : a.query.valid a.effParams
    · cases r with
      | json p => right; simp [hq]
      | powerJson meta params =>
        left
        exact ⟨by simp [hq], meta, params, rfl, by simp [hq]⟩
      | csvText t => right; simp [hq]
      | httpError s => right; simp [hq]
    · right
      simp [hq]
  · unfold Silo.get_variables
    by_cases hq : a.query.valid siloVocabulary
    · cases r with
      | json p => right; simp [hq]
      | powerJson meta params => right; simp [hq]
      | csvText t =>
        left
        exact ⟨by simp [hq], t, rfl, by simp [hq]⟩
      | httpError s => right; simp [hq]
    · right
      simp [hq]

/-- C2: for every adapter, on a fetched MetData lacking required source
variables, `convertToGlmFormat` fails with a `ConversionError` that names
exactly the required fields absent from the data, leaving the adapter
unchanged. -/
theorem convert_missing_named :
    (∀ (a : Historical) (md : MetData), a.met_data = some md →
      missingVars md.data ≠ [] →
      a.convert_to_glm = (a, some ⟨missingVars md.data⟩) ∧
        ∀ v, v ∈ missingVars md.data ↔ v ∈ glmRequiredVars ∧ v ∉ md.data.header) ∧
    (∀ (a : Climate) (md : MetData), a.met_data = some md →
      missingVars md.data ≠ [] →
      a.convert_to_glm = (a, some ⟨missingVars md.data⟩) ∧
        ∀ v, v ∈ missingVars md.data ↔ v ∈ glmRequiredVars ∧ v ∉ md.data.header) ∧
    (∀ (a : Power) (md : MetData), a.met_data = some md →
      powerMissingVars md.data ≠ [] →
      a.convert_to_glm = (a, some ⟨powerMissingVars md.data⟩) ∧
        ∀ v, v ∈ powerMissingVars md.data ↔
          v ∈ powerDefaultParams ∧ v ∉ md.data.header) ∧
    (∀ (a : Silo) (md : MetData), a.met_data = some md →
      missingVars md.data ≠ [] →
      a.convert_to_glm = (a, some ⟨missingVars md.data⟩) ∧
        ∀ v, v ∈ missingVars md.data ↔ v ∈ glmRequiredVars ∧ v ∉ md.data.header) := by
  have hconv : ∀ md : MetData, missingVars md.data ≠ [] →
      convert_to_glm_table md.data = .error ⟨missingVars md.data⟩ := by
    intro md hmiss
    unfold convert_to_glm_table
    rw [if_neg hmiss]
  refine ⟨fun a md hmd hmiss => ⟨?_, fun v => ?_⟩,
    fun a md hmd hmiss => ⟨?_, fun v => ?_⟩,
    fun a md hmd hmiss => ⟨?_, fun v => ?_⟩,
    fun a md hmd hmiss => ⟨?_, fun v => ?_⟩⟩
  · unfold Historical.convert_to_glm
    simp [hmd, hconv md hmiss]
  · simp [missingVars, List.mem_filter]
  · unfold Climate.convert_to_glm
    simp [hmd, hconv md hmiss]
  · simp [missingVars, List.mem_filter]
  · unfold Power.convert_to_glm
    simp [hmd, hmiss]
  · simp [powerMissingVars, List.mem_filter]
  · unfold Silo.convert_to_glm
    simp [hmd, hconv md hmiss]
  · simp [missingVars, List.mem_filter]

/-- Witness for C2: each of the four adapters, fetched without its cloud
field, fails with a `ConversionError` naming it. -/
theorem convert_missing_named_witness :
    adapterNoCloud.convert_to_glm = (adapterNoCloud, some ⟨[varCloud]⟩) ∧
      climateNoCloud.convert_to_glm = (climateNoCloud, some ⟨[varCloud]⟩) ∧
      powerNoCloud.convert_to_glm = (powerNoCloud, some ⟨[("CLOUD_AMT")]⟩) ∧
      siloNoCloud.convert_to_glm = (siloNoCloud, some ⟨[varCloud]⟩) ∧
      varCloud ∈ glmRequiredVars ∧ varCloud ∉ mdNoCloud.data.header := by
  have h1 := convert_missing_named.1 adapterNoCloud mdNoCloud rfl (by decide)
  have h2 := convert_missing_named.2.1 climateNoCloud mdNoCloud rfl (by decide)
  have h3 := convert_missing_named.2.2.1 powerNoCloud mdNoCloudP rfl (by decide)
  have h4 := convert_missing_named.2.2.2 siloNoCloud mdNoCloud rfl (by decide)
  have he : missingVars mdNoCloud.data = [varCloud] := by decide
  have heP : powerMissingVars mdNoCloudP.data = [("CLOUD_AMT")] := by decide
  rw [he] at h1 h2 h4
  rw [heP] at h3
  exact ⟨h1.1, h2.1, h3.1, h4.1, (h1.2 varCloud).mp (by decide)⟩

/-- C8: for every adapter, when the requested range's start date equals
its end date, a successful fetch-then-convert pipeline yields exactly 24
rows at hourly resolution (historical when hourly, aggregator) and exactly
1 row at daily resolution (historical when daily, climate-projection,
station-archive). -/
theorem single_day_pipeline :
    (∀ (a : Historical) (p : Payload),
      p.times.length = numTimesteps a.query →
      a.date_range.1 = a.date_range.2 →
      ∀ b : Historical, a.get_variables (.json p) = (b, none) →
      ∀ (c : Historical) (t : Table), b.convert_to_glm = (c, none) →
      c.glm_met_data = some t →
      (a.hourly = true → t.rows.length = 24) ∧
        (a.hourly = false → t.rows.length = 1)) ∧
    (∀ (a : Climate) (p : Payload),
      p.times.length = numTimesteps a.query →
      a.date_range.1 = a.date_range.2 →
      ∀ b : Climate, a.get_variables (.json p) = (b, none) →
      ∀ (c : Climate) (t : Table), b.convert_to_glm = (c, none) →
      c.glm_met_data = some t → t.rows.length = 1) ∧
    (∀ (a : Power) (meta : List (String × String))
      (params : List (String × List (String × Dec))),
      (powerTimes params).length = numTimesteps a.query →
      a.date_range.1 = a.date_range.2 →
      ∀ b : Power, a.get_variables (.powerJson meta params) = (b, none) →
      ∀ (c : Power) (t : Table), b.convert_to_glm = (c, none) →
      c.glm_met_data = some t → t.rows.length = 24) ∧
    (∀ (a : Silo) (raw : Table),
      raw.rows.length = numTimesteps a.query →
      a.date_range.1 = a.date_range.2 →
      ∀ b : Silo, a.get_variables (.csvText raw) = (b, none) →
      ∀ (c : Silo) (t : Table), b.convert_to_glm = (c, none) →
      c.glm_met_data = some t → t.rows.length = 1) := by
  refine ⟨?_, ?_, ?_, ?_⟩
  · intro a p hlen heq b hb c t hc ht
    obtain ⟨-, q, hq, hbdef⟩ := get_variables_ok hb
    cases hq
    obtain ⟨md, u, hmd, hu, hcdef⟩ := convert_to_glm_ok hc
    rw [hbdef] at hmd
    simp only [Option.some.injEq] at hmd
    rw [hcdef, hbdef] at ht
    simp only [Option.some.injEq] at ht
    obtain ⟨-, hudef⟩ := convert_ok_iff.mp hu
    have hrows : t.rows.length = p.times.length := by
      rw [← ht, hudef, ← hmd]
      simp [payloadTable]
    have hnum : t.rows.length = numTimesteps a.query := hrows.trans hlen
    have hdays : numDays a.query = 1 := numDays_single _ heq
    have hhq : a.query.hourly = a.hourly := rfl
    constructor
    · intro hh
      rw [hnum]
      unfold numTimesteps
      rw [hdays, hhq, hh]
      simp
    · intro hh
      rw [hnum]
      unfold numTimesteps
      rw [hdays, hhq, hh]
      simp
  · intro a p hlen heq b hb c t hc ht
    obtain ⟨-, q, hq, hbdef⟩ := climate_get_variables_ok hb
    cases hq
    obtain ⟨md, u, hmd, hu, hcdef⟩ := climate_convert_ok hc
    rw [hbdef] at hmd
    simp only [Option.some.injEq] at hmd
    rw [hcdef, hbdef] at ht
    simp only [Option.some.injEq] at ht
    obtain ⟨-, hudef⟩ := convert_ok_iff.mp hu
    have hrows : t.rows.length = p.times.length := by
      rw [← ht, hudef, ← hmd]
      simp [payloadTable]
    have hdays : numDays a.query = 1 := numDays_single _ heq
    rw [hrows, hlen]
    unfold numTimesteps
    rw [hdays]
    rfl
  · intro a meta params hlen heq b hb c t hc ht
    obtain ⟨-, m2, p2, hq, hbdef⟩ := power_get_variables_ok hb
    cases hq
    obtain ⟨md, u, hmd, -, hudef, hcdef⟩ := power_convert_ok hc
    rw [hbdef] at hmd
    simp only [Option.some.injEq] at hmd
    rw [hcdef, hbdef] at ht
    simp only [Option.some.injEq] at ht
    have hrows : t.rows.length = (powerTimes params).length := by
      rw [← ht, hudef, ← hmd]
      simp [powerPivot]
    have hdays : numDays a.query = 1 := numDays_single _ heq
    rw [hrows, hlen]
    unfold numTimesteps
    rw [hdays]
    rfl
  · intro a raw hlen heq b hb c t hc ht
    obtain ⟨-, raw2, hq, hbdef⟩ := silo_get_variables_ok hb
    cases hq
    obtain ⟨md, u, hmd, hu, hcdef⟩ := silo_convert_ok hc
    rw [hbdef] at hmd
    simp only [Option.some.injEq] at hmd
    rw [hcdef, hbdef] at ht
    simp only [Option.some.injEq] at ht
    obtain ⟨-, hudef⟩ := convert_ok_iff.mp hu
    have hrows : t.rows.length = raw.rows.length := by
      rw [← ht, hudef, ← hmd]
      simp
    have hdays : numDays a.query = 1 := numDays_single _ heq
    rw [hrows, hlen]
    unfold numTimesteps
    rw [hdays]
    rfl

/-- Witness for C8: single-day queries yield exactly 24 rows on the hourly
historical and aggregator adapters and exactly 1 row on the daily climate
and station-archive adapters. -/
theorem single_day_pipeline_witness :
    (wAdapter.hourly = true ∧ w8t.rows.length = 24) ∧
      w8tC.rows.length = 1 ∧ w8tP.rows.length = 24 ∧ w8tS.rows.length = 1 := by
  have h1 := single_day_pipeline.1 wAdapter wPayload (by decide) rfl
    w8b (by decide) w8c w8t (by decide) (by decide)
  have h2 := single_day_pipeline.2.1 wClimateAdapter wClimatePayload (by decide) rfl
    w8bC (by decide) w8cC w8tC (by decide) (by decide)
  have h3 := single_day_pipeline.2.2.1 wPowerAdapter [] wPowerParams (by decide) rfl
    w8bP (by decide) w8cP w8tP (by decide) (by decide)
  have h4 := single_day_pipeline.2.2.2 wSiloAdapter wSiloRaw (by decide) rfl
    w8bS (by decide) w8cS w8tS (by decide) (by decide)
  exact ⟨⟨rfl, h1.1 rfl⟩, h2, h3, h4⟩

/-- C10: a successful conversion always yields exactly the seven canonical
columns in their fixed order, rows of exactly seven cells, and no column
for any fetched variable outside the GLM schema, even one explicitly
requested and present in the raw data. -/
theorem convert_fixed_schema (md : MetData) (t : Table)
    (h : convert_to_glm_table md.data = .ok t) :
    t.header = glmHeader ∧ (∀ r ∈ t.rows, r.length = 7) ∧
      ∀ v ∈ md.data.header, v ∉ glmHeader → v ∉ t.header := by
  obtain ⟨-, ht⟩ := convert_ok_iff.mp h
  subst ht
  refine ⟨rfl, ?_, ?_⟩
  · intro r hr
    obtain ⟨r0, -, hr0⟩ := List.mem_map.mp hr
    rw [← hr0]
    rfl
  · intro v _ hvg
    exact hvg

/-- Witness for C10: converting the recorded notebook table (which carries
the explicitly requested `et0_fao_evapotranspiration` column) yields the
seven-column canonical header without it. -/
theorem convert_fixed_schema_witness :
    nbGlm.header = glmHeader ∧
      ("et0_fao_evapotranspiration" ∈ nbMet.data.header ∧
        "et0_fao_evapotranspiration" ∉ nbGlm.header) := by
  have h := convert_fixed_schema nbMet nbGlm rfl
  exact ⟨h.1, by decide, h.2.2 _ (by decide) (by decide)⟩

/-- C6: on provider-form timestamps `YYYY-MM-DDTHH:MM` the reformatting
used by `convertToGlmFormat` replaces the `T` separator by a space and
leaves every date and time character unchanged, and the converted row's
time column is exactly the reformatted raw time cell. -/
theorem reformat_timestamps (a b : List Char) (_ha10 : a.length = 10)
    (_hb5 : b.length = 5) (ha : ∀ c ∈ a, c ∈ dateChars)
    (hb : ∀ c ∈ b, c ∈ timeChars) :
    reformatTime ⟨a ++ 'T' :: b⟩ = ⟨a ++ ' ' :: b⟩ ∧
      ∀ hdr row, (convertRow hdr row).getD 0 junkCell =
        (rowCell hdr row colTime).reformat := by
  constructor
  · have hdate : ∀ c ∈ dateChars, reformatChar c = c := by decide
    have htime : ∀ c ∈ timeChars, reformatChar c = c := by decide
    unfold reformatTime
    congr 1
    show (a ++ 'T' :: b).map reformatChar = a ++ ' ' :: b
    rw [List.map_append, List.map_cons]
    have hma : a.map reformatChar = a := by
      rw [List.map_congr_left (fun c hc => hdate c (ha c hc))]
      exact List.map_id a
    have hmb : b.map reformatChar = b := by
      rw [List.map_congr_left (fun c hc => htime c (hb c hc))]
      exact List.map_id b
    rw [hma, hmb]
    rfl
  · intro hdr row
    rfl

/-- Witness for C6: the notebook's first raw timestamp reformats to the
recorded GLM timestamp. -/
theorem reformat_timestamps_witness :
    reformatTime ⟨"2020-01-01".data ++ 'T' :: "00:00".data⟩ =
      ⟨"2020-01-01".data ++ ' ' :: "00:00".data⟩ :=
  (reformat_timestamps ("2020-01-01".data) ("00:00".data)
    (by decide) (by decide) (by decide) (by decide)).1

/-- C1: a successful conversion maps each raw row into the canonical
order with the cloud-cover cell divided by 100 and every other field
passed through unchanged; in rational value the Cloud entry is the raw
cloud-cover percent divided by 100. -/
theorem convert_field_mapping (md : MetData) (t : Table)
    (h : convert_to_glm_table md.data = .ok t)
    (i : Nat) (hi : i < md.data.rows.length) :
    t.rows.getD i [] =
      [(rowCell md.data.header (md.data.rows.getD i []) colTime).reformat,
       rowCell md.data.header (md.data.rows.getD i []) varShortwave,
       (rowCell md.data.header (md.data.rows.getD i []) varCloud).div100,
       rowCell md.data.header (md.data.rows.getD i []) varTemp,
       rowCell md.data.header (md.data.rows.getD i []) varRelHum,
       rowCell md.data.header (md.data.rows.getD i []) varWind,
       rowCell md.data.header (md.data.rows.getD i []) varPrecip] ∧
    ∀ d : Dec, rowCell md.data.header (md.data.rows.getD i []) varCloud = .num d →
      ((t.rows.getD i []).getD 2 junkCell).ratValue = some (d.toRat / 100) := by
  obtain ⟨-, ht⟩ := convert_ok_iff.mp h
  have hrow : t.rows.getD i [] = convertRow md.data.header (md.data.rows.getD i []) := by
    rw [ht]
    rw [List.getD_eq_getElem?_getD, List.getD_eq_getElem?_getD, List.getElem?_map]
    rw [List.getElem?_eq_getElem hi]
    rfl
  constructor
  · rw [hrow]
    rfl
  · intro d hd
    rw [hrow]
    show ((convertRow md.data.header (md.data.rows.getD i [])).getD 2 junkCell).ratValue
      = some (d.toRat / 100)
    have : (convertRow md.data.header (md.data.rows.getD i [])).getD 2 junkCell =
        (rowCell md.data.header (md.data.rows.getD i []) varCloud).div100 := rfl
    rw [this, hd]
    show some ((Dec.div100 d).toRat) = some (d.toRat / 100)
    rw [Dec.div100_toRat]

/-- Witness for C1: on the recorded notebook fetch the first converted
row's AirTemp is the raw `temperature_2m` value 17.1 unchanged and its
Cloud is the raw `cloudcover` 27 divided by 100. -/
theorem convert_field_mapping_witness :
    (nbGlm.rows.getD 0 []).getD 3 junkCell = .num ⟨171, 1⟩ ∧
      rowCell nbMet.data.header (nbMet.data.rows.getD 0 []) varTemp = .num ⟨171, 1⟩ ∧
      (nbGlm.rows.getD 0 []).getD 2 junkCell = .num ⟨27, 2⟩ ∧
      ((nbGlm.rows.getD 0 []).getD 2 junkCell).ratValue =
        some ((Dec.toRat ⟨27, 0⟩) / 100) := by
  have h := convert_field_mapping nbMet nbGlm rfl 0 (by decide)
  refine ⟨?_, by decide, ?_, ?_⟩
  · rw [h.1]
    decide
  · rw [h.1]
    decide
  · exact h.2 ⟨27, 0⟩ (by decide)

/-- C5: on a well-formed provider response for the stored query — one
timestep per requested-range step, aligned parallel arrays, cloud cover in
percent — a successful fetch-then-convert pipeline yields a table with one
row per timestep whose Cloud column values all lie in [0, 1]. -/
theorem pipeline_cloud_fraction (a : Historical) (p : Payload)
    (hlen : p.times.length = numTimesteps a.query)
    (hser : ∀ s ∈ p.series, (s.2).length = p.times.length)
    (hcloud : ∀ s ∈ p.series, s.1 = varCloud → ∀ d ∈ s.2, 0 ≤ d.toRat ∧ d.toRat ≤ 100)
    (b : Historical) (hb : a.get_variables (.json p) = (b, none))
    (c : Historical) (t : Table) (hc : b.convert_to_glm = (c, none))
    (ht : c.glm_met_data = some t) :
    t.rows.length = numTimesteps a.query ∧
      ∀ r ∈ t.rows, ∃ d : Dec, r.getD 2 junkCell = .num d ∧
        0 ≤ d.toRat ∧ d.toRat ≤ 1 := by
  obtain ⟨-, q, hq, hbdef⟩ := get_variables_ok hb
  cases hq
  obtain ⟨md, u, hmd, hu, hcdef⟩ := convert_to_glm_ok hc
  rw [hbdef] at hmd
  simp only [Option.some.injEq] at hmd
  rw [hcdef, hbdef] at ht
  simp only [Option.some.injEq] at ht
  rw [← hmd] at hu
  obtain ⟨hmiss, hudef⟩ := convert_ok_iff.mp hu
  constructor
  · rw [← ht, hudef, ← hlen]
    simp [payloadTable]
  · intro r hr
    rw [← ht, hudef] at hr
    obtain ⟨row0, hrow0mem, hroweq⟩ := List.mem_map.mp hr
    have hrows : (payloadTable p).rows =
        (List.range p.times.length).map (payloadRow p) := rfl
    rw [hrows] at hrow0mem
    obtain ⟨i, himem, hieq⟩ := List.mem_map.mp hrow0mem
    have hi : i < p.times.length := List.mem_range.mp himem
    have hρ : r.getD 2 junkCell =
        (rowCell (payloadTable p).header (payloadRow p i) varCloud).div100 := by
      rw [← hroweq, ← hieq]
      rfl
    have hcl : varCloud ∈ (payloadTable p).header :=
      missing_nil_mem hmiss varCloud (by decide)
    have hclm : varCloud ∈ p.series.map Prod.fst := by
      have hhd : (payloadTable p).header = colTime :: p.series.map Prod.fst := rfl
      rw [hhd] at hcl
      cases List.mem_cons.mp hcl with
      | inl hb2 => exact absurd hb2 (by decide)
      | inr hb2 => exact hb2
    obtain ⟨s0, hs0mem, hs0fst⟩ := List.mem_map.mp hclm
    have hsome : (p.series.find? (fun s => varCloud == s.1)).isSome :=
      List.find?_isSome.mpr ⟨s0, hs0mem, by simp [hs0fst]⟩
    obtain ⟨sf, hsf⟩ := Option.isSome_iff_exists.mp hsome
    have hsffst : sf.1 = varCloud := by
      have := List.find?_some hsf
      simp only [beq_iff_eq] at this
      exact this.symm
    have hsfmem : sf ∈ p.series := List.mem_of_find?_eq_some hsf
    have hi2 : i < sf.2.length := by
      rw [hser sf hsfmem]
      exact hi
    have hcell : rowCell (payloadTable p).header (payloadRow p i) varCloud =
        .num (sf.2.get ⟨i, hi2⟩) := by
      rw [rowCell_payload p i varCloud (by decide), hsf]
      show Cell.num ((sf.2).getD i d0) = .num (sf.2.get ⟨i, hi2⟩)
      rw [List.getD_eq_getElem?_getD, List.getElem?_eq_getElem hi2]
      simp [List.get_eq_getElem]
    have hmem2 : sf.2.get ⟨i, hi2⟩ ∈ sf.2 := List.get_mem sf.2 i hi2
    obtain ⟨hlo, hhi⟩ := hcloud sf hsfmem hsffst _ hmem2
    refine ⟨(sf.2.get ⟨i, hi2⟩).div100, ?_, ?_, ?_⟩
    · rw [hρ, hcell]
      rfl
    · rw [Dec.div100_toRat]
      positivity
    · rw [Dec.div100_toRat]
      linarith

/-- Witness for C5: the single-day hourly pipeline yields 24 rows whose
Cloud entries (raw cloud cover 50 percent) lie in [0, 1]. -/
theorem pipeline_cloud_fraction_witness :
    w8t.rows.length = numTimesteps wAdapter.query ∧
      ∀ r ∈ w8t.rows, ∃ d : Dec, r.getD 2 junkCell = .num d ∧
        0 ≤ d.toRat ∧ d.toRat ≤ 1 := by
  have h := pipeline_cloud_fraction wAdapter wPayload (by decide)
    (by decide)
    (by
      intro s hs hfst d hd
      have hs2 : s.2 = List.replicate 24 (⟨50, 0⟩ : Dec) := by
        obtain ⟨v, -, hveq⟩ := List.mem_map.mp hs
        rw [← hveq]
      rw [hs2] at hd
      have h50 : d = ⟨50, 0⟩ := (List.mem_replicate.mp hd).2
      rw [h50]
      constructor
      · norm_num [Dec.toRat]
      · norm_num [Dec.toRat])
    w8b (by decide) w8c w8t (by decide) (by decide)
  exact h

/-- Evaluating a list of replicated zero digits. -/
theorem ofDigits_replicate_zero (b k : Nat) :
    Nat.ofDigits b (List.replicate k 0) = 0 := by
  induction k with
  | zero => rfl
  | succ n ih => simp [List.replicate, Nat.ofDigits_cons, ih]

/-- All padded digits are below the base. -/
theorem padDigits_lt (n e : Nat) : ∀ x ∈ padDigits n e, x < 10 := by
  intro x hx
  unfold padDigits at hx
  rcases List.mem_append.mp hx with h | h
  · exact Nat.digits_lt_base (by norm_num) h
  · rw [(List.mem_replicate.mp h).2]
    norm_num

/-- Padding with high zeros does not change the value. -/
theorem ofDigits_padDigits (n e : Nat) : Nat.ofDigits 10 (padDigits n e) = n := by
  unfold padDigits
  rw [Nat.ofDigits_append, ofDigits_replicate_zero, Nat.ofDigits_digits]
  simp

/-- The padded digit list is long enough for the decimal point. -/
theorem padDigits_len (n e : Nat) : e + 1 ≤ (padDigits n e).length := by
  unfold padDigits
  rw [List.length_append, List.length_replicate]
  omega

/-- Digit characters parse back to their digit. -/
theorem charDigit_digitChar (d : Nat) (hd : d < 10) :
    charDigit (Nat.digitChar d) = some d := by
  interval_cases d <;> decide

/-- Digit characters of digits below ten are decimal digit characters. -/
theorem digitChar_mem (d : Nat) (hd : d < 10) : Nat.digitChar d ∈ digitCharList := by
  interval_cases d <;> decide

/-- Rendering digits below ten and parsing them back is the identity. -/
theorem parseDigitList_map (l : List Nat) (hl : ∀ x ∈ l, x < 10) :
    parseDigitList (l.map Nat.digitChar) = some l := by
  induction l with
  | nil => rfl
  | cons x xs ih =>
    have hx := hl x (by simp)
    have hxs : ∀ y ∈ xs, y < 10 := fun y hy => hl y (by simp [hy])
    simp only [List.map_cons, parseDigitList, charDigit_digitChar x hx, ih hxs]

/-- A non-digit character anywhere makes digit parsing fail. -/
theorem parseDigitList_none (l : List Char) (c : Char) (hc : c ∈ l)
    (hnone : charDigit c = none) : parseDigitList l = none := by
  induction l with
  | nil => simp at hc
  | cons x xs ih =>
    rcases List.mem_cons.mp hc with rfl | hmem
    · simp [parseDigitList, hnone]
    · unfold parseDigitList
      rw [ih hmem]
      cases charDigit x <;> rfl

/-- Splitting a dot-free list at the dot returns the whole list. -/
theorem splitAtDot_no_dot (l : List Char) (h : '.' ∉ l) :
    splitAtDot l = (l, []) := by
  induction l with
  | nil => rfl
  | cons x xs ih =>
    simp only [List.mem_cons, not_or] at h
    obtain ⟨h1, h2⟩ := h
    unfold splitAtDot
    rw [if_neg (fun hx => h1 hx.symm), ih h2]

/-- Splitting at an explicit dot separates the two sides. -/
theorem splitAtDot_append (l r : List Char) (h : '.' ∉ l) :
    splitAtDot (l ++ '.' :: r) = (l, r) := by
  induction l with
  | nil => simp [splitAtDot]
  | cons x xs ih =>
    simp only [List.mem_cons, not_or] at h
    obtain ⟨h1, h2⟩ := h
    rw [List.cons_append]
    unfold splitAtDot
    rw [if_neg (fun hx => h1 hx.symm), ih h2]

/-- Every character of a rendered non-negative decimal is a digit or the
point. -/
theorem printUnsigned_mem (n e : Nat) :
    ∀ c ∈ printUnsigned n e, c ∈ digitCharList ∨ c = '.' := by
  intro c hc
  have hbig : ∀ x ∈ (padDigits n e).reverse.map Nat.digitChar, x ∈ digitCharList := by
    intro x hx
    obtain ⟨d, hd, hdx⟩ := List.mem_map.mp hx
    rw [← hdx]
    exact digitChar_mem d (padDigits_lt n e d (List.mem_reverse.mp hd))
  unfold printUnsigned at hc
  split at hc
  · exact Or.inl (hbig c hc)
  · rcases List.mem_append.mp hc with h | h
    · exact Or.inl (hbig c (List.mem_of_mem_take h))
    · rcases List.mem_cons.mp h with rfl | h2
      · exact Or.inr rfl
      · exact Or.inl (hbig c (List.mem_of_mem_drop h2))

/-- A rendered decimal is never empty. -/
theorem printUnsigned_ne_nil (n e : Nat) : printUnsigned n e ≠ [] := by
  have hlen := padDigits_len n e
  unfold printUnsigned
  split
  · intro hmap
    have h0 : ((padDigits n e).reverse.map Nat.digitChar).length = 0 := by
      rw [hmap]
      rfl
    simp only [List.length_map, List.length_reverse] at h0
    omega
  · intro happ
    rw [List.append_eq_nil] at happ
    exact absurd happ.2 (by simp)

/-- Parsing a rendered non-negative decimal recovers mantissa and
exponent. -/
theorem parseUnsignedDec_print (n e : Nat) :
    parseUnsignedDec (printUnsigned n e) = some ⟨(n : Int), e⟩ := by
  have hlen := padDigits_len n e
  have hrev : ∀ x ∈ (padDigits n e).reverse, x < 10 := fun x hx =>
    padDigits_lt n e x (List.mem_reverse.mp hx)
  have hnodot : '.' ∉ (padDigits n e).reverse.map Nat.digitChar := by
    intro hdot
    obtain ⟨d, hd, hdx⟩ := List.mem_map.mp hdot
    have hmem := digitChar_mem d (hrev d hd)
    rw [hdx] at hmem
    revert hmem
    decide
  by_cases he : e = 0
  · subst he
    unfold printUnsigned
    rw [if_pos rfl]
    unfold parseUnsignedDec
    rw [splitAtDot_no_dot _ hnodot]
    dsimp only
    rw [parseDigitList_map _ hrev]
    rw [show parseDigitList [] = some ([] : List Nat) from rfl]
    rw [Option.some_bind, Option.map_some']
    rw [List.append_nil, List.reverse_reverse, ofDigits_padDigits]
    rfl
  · unfold printUnsigned
    rw [if_neg he]
    have hnodotA : '.' ∉ ((padDigits n e).reverse.map Nat.digitChar).take
        ((padDigits n e).length - e) := fun hmem => hnodot (List.mem_of_mem_take hmem)
    unfold parseUnsignedDec
    rw [splitAtDot_append _ _ hnodotA]
    have htake : ((padDigits n e).reverse.map Nat.digitChar).take
        ((padDigits n e).length - e) =
        ((padDigits n e).reverse.take ((padDigits n e).length - e)).map Nat.digitChar :=
      (List.map_take Nat.digitChar (padDigits n e).reverse
        ((padDigits n e).length - e)).symm
    have hdrop : ((padDigits n e).reverse.map Nat.digitChar).drop
        ((padDigits n e).length - e) =
        ((padDigits n e).reverse.drop ((padDigits n e).length - e)).map Nat.digitChar :=
      (List.map_drop Nat.digitChar (padDigits n e).reverse
        ((padDigits n e).length - e)).symm
    rw [htake, hdrop]
    rw [parseDigitList_map _ (fun x hx => hrev x (List.mem_of_mem_take hx))]
    rw [parseDigitList_map _ (fun x hx => hrev x (List.mem_of_mem_drop hx))]
    rw [Option.some_bind, Option.map_some']
    rw [List.take_append_drop, List.reverse_reverse, ofDigits_padDigits]
    have hexp : ((padDigits n e).reverse.drop ((padDigits n e).length - e)).length = e := by
      rw [List.length_drop, List.length_reverse]
      omega
    rw [hexp]

/-- Every character of a rendered decimal is a digit, the point, or the
minus sign. -/
theorem printDec_mem (d : Dec) :
    ∀ c ∈ printDec d, c ∈ digitCharList ∨ c = '.' ∨ c = '-' := by
  intro c hc
  unfold printDec at hc
  split at hc
  · rcases List.mem_cons.mp hc with rfl | h2
    · exact Or.inr (Or.inr rfl)
    · rcases printUnsigned_mem _ _ c h2 with h | h
      · exact Or.inl h
      · exact Or.inr (Or.inl h)
  · rcases printUnsigned_mem _ _ c hc with h | h
    · exact Or.inl h
    · exact Or.inr (Or.inl h)

/-- Parsing a rendered decimal recovers it exactly. -/
theorem parseDec_print (d : Dec) : parseDec (printDec d) = some d := by
  by_cases hm : d.mant < 0
  · unfold printDec
    rw [if_pos hm]
    show (if ('-' : Char) = '-' then
        (parseUnsignedDec (printUnsigned d.mant.natAbs d.exp)).map
          (fun x => ⟨-x.mant, x.exp⟩)
      else parseUnsignedDec ('-' :: printUnsigned d.mant.natAbs d.exp)) = some d
    rw [if_pos rfl, parseUnsignedDec_print]
    show some (⟨-(d.mant.natAbs : Int), d.exp⟩ : Dec) = some d
    have habs : -(d.mant.natAbs : Int) = d.mant := by omega
    rw [habs]
  · unfold printDec
    rw [if_neg hm]
    obtain ⟨c, cs, hP⟩ : ∃ c cs, printUnsigned d.mant.natAbs d.exp = c :: cs := by
      cases hh : printUnsigned d.mant.natAbs d.exp with
      | nil => exact absurd hh (printUnsigned_ne_nil _ _)
      | cons c cs => exact ⟨c, cs, rfl⟩
    have hcmem : c ∈ printUnsigned d.mant.natAbs d.exp := by
      rw [hP]
      simp
    have hcne : c ≠ '-' := by
      rcases printUnsigned_mem _ _ c hcmem with h | h
      · have hnotminus : ∀ x ∈ digitCharList, x ≠ '-' := by decide
        exact hnotminus c h
      · rw [h]
        decide
    rw [hP]
    show (if c = '-' then (parseUnsignedDec cs).map (fun x => ⟨-x.mant, x.exp⟩)
      else parseUnsignedDec (c :: cs)) = some d
    rw [if_neg hcne, ← hP, parseUnsignedDec_print]
    have habs : ((d.mant.natAbs : Int)) = d.mant := by omega
    rw [habs]

/-- A decimal digit character is not a separator-like character. -/
theorem isDigitC_ne (c : Char) (h : isDigitC c = true) :
    c ≠ ',' ∧ c ≠ '\n' ∧ c ≠ '.' ∧ c ≠ '-' := by
  unfold isDigitC charDigit at h
  split at h
  · rename_i hc
    refine ⟨?_, ?_, ?_, ?_⟩ <;> rintro rfl <;> revert hc <;> decide
  · simp at h

/-- A well-formed GLM timestamp contains only digits and its fixed
separators, and never parses as a decimal literal. -/
theorem glmTime_facts (cs : List Char) (h : isGlmTimeB cs = true) :
    (∀ x : Char, isDigitC x = false → x ≠ '-' → x ≠ ' ' → x ≠ ':' → x ∉ cs) ∧
      parseDec cs = none := by
  unfold isGlmTimeB at h
  split at h
  · rename_i y1 y2 y3 y4 c1 o1 o2 c2 d1 d2 c3 h1 h2 c4 n1 n2
    simp only [Bool.and_eq_true, decide_eq_true_eq] at h
    obtain ⟨⟨⟨⟨⟨⟨⟨⟨⟨⟨⟨⟨⟨⟨⟨hy1, hy2⟩, hy3⟩, hy4⟩, hc1⟩, ho1⟩, ho2⟩, hc2⟩, hd1⟩,
      hd2⟩, hc3⟩, hh1⟩, hh2⟩, hc4⟩, hn1⟩, hn2⟩ := h
    subst hc1
    subst hc2
    subst hc3
    subst hc4
    have hnot : ∀ x : Char, isDigitC x = false → x ≠ '-' → x ≠ ' ' → x ≠ ':' →
        x ∉ [y1, y2, y3, y4, '-', o1, o2, '-', d1, d2, ' ', h1, h2, ':', n1, n2] := by
      intro x hx hxd hxs hxc hmem
      simp only [List.mem_cons, List.not_mem_nil, or_false] at hmem
      rcases hmem with rfl | rfl | rfl | rfl | rfl | rfl | rfl | rfl | rfl | rfl |
        rfl | rfl | rfl | rfl | rfl | rfl <;>
        first
          | exact hxd rfl
          | exact hxs rfl
          | exact hxc rfl
          | simp_all
    refine ⟨hnot, ?_⟩
    have hy1ne : y1 ≠ '-' := (isDigitC_ne y1 hy1).2.2.2
    have hdot := hnot '.' (by decide) (by decide) (by decide) (by decide)
    show (if y1 = '-' then
        (parseUnsignedDec [y2, y3, y4, '-', o1, o2, '-', d1, d2, ' ', h1, h2, ':',
          n1, n2]).map (fun x => ⟨-x.mant, x.exp⟩)
      else parseUnsignedDec [y1, y2, y3, y4, '-', o1, o2, '-', d1, d2, ' ', h1, h2,
        ':', n1, n2]) = none
    rw [if_neg hy1ne]
    unfold parseUnsignedDec
    rw [splitAtDot_no_dot _ hdot]
    rw [parseDigitList_none
      [y1, y2, y3, y4, '-', o1, o2, '-', d1, d2, ' ', h1, h2, ':', n1, n2]
      '-' (by simp) (by decide)]
    rfl
  · simp at h

/-- A canonical row is nonempty and all its cells are admissible. -/
theorem rowCanonical_ok (r : List Cell) (hr : rowCanonical r = true) :
    r ≠ [] ∧ ∀ c ∈ r, cellOk c = true := by
  simp only [rowCanonical, Bool.and_eq_true, beq_iff_eq, List.all_eq_true] at hr
  obtain ⟨⟨hlen7, htime⟩, hnums⟩ := hr
  cases r with
  | nil => simp at hlen7
  | cons c0 rt =>
    refine ⟨by simp, ?_⟩
    intro c hcm
    rcases List.mem_cons.mp hcm with rfl | hcm2
    · have h0 : cellIsTime c = true := htime
      simp [cellOk, h0]
    · have h1 : cellIsNum c = true := hnums c hcm2
      simp [cellOk, h1]

/-- Writing one admissible cell and reading it back is the identity. -/
theorem cell_round_trip (c : Cell) (hc : cellOk c = true) :
    parseCell (cellChars c) = c := by
  cases c with
  | str s =>
    have ht : isGlmTimeB s.data = true := by
      simpa [cellOk, cellIsTime, cellIsNum] using hc
    unfold parseCell cellChars
    rw [(glmTime_facts s.data ht).2]
  | num d =>
    unfold parseCell cellChars
    rw [parseDec_print]
  | null => simp [cellOk, cellIsTime, cellIsNum] at hc

/-- An admissible cell's rendering contains no field or record
separator. -/
theorem cell_safe (c : Cell) (hc : cellOk c = true) :
    ',' ∉ cellChars c ∧ '\n' ∉ cellChars c := by
  cases c with
  | str s =>
    have ht : isGlmTimeB s.data = true := by
      simpa [cellOk, cellIsTime, cellIsNum] using hc
    have hnot := (glmTime_facts s.data ht).1
    exact ⟨hnot ',' (by decide) (by decide) (by decide) (by decide),
      hnot '\n' (by decide) (by decide) (by decide) (by decide)⟩
  | num d =>
    constructor <;> intro hmem <;>
      rcases printDec_mem d _ hmem with h | h | h <;> revert h <;> decide
  | null => simp [cellOk, cellIsTime, cellIsNum] at hc

/-- Membership in a single-separator intercalation. -/
theorem mem_intercalate_single {sep : Char} {ls : List (List Char)} {x : Char}
    (h : x ∈ [sep].intercalate ls) : x = sep ∨ ∃ l ∈ ls, x ∈ l := by
  induction ls with
  | nil => simp [List.intercalate] at h
  | cons hd tl ih =>
    cases tl with
    | nil =>
      simp only [List.intercalate, List.intersperse_single, List.flatten_cons,
        List.flatten_nil, List.append_nil] at h
      exact Or.inr ⟨hd, by simp, h⟩
    | cons b bs =>
      have hre : [sep].intercalate (hd :: b :: bs) =
          hd ++ sep :: [sep].intercalate (b :: bs) := by
        simp [List.intercalate, List.intersperse_cons_cons]
      rw [hre] at h
      rcases List.mem_append.mp h with h1 | h1
      · exact Or.inr ⟨hd, by simp, h1⟩
      · rcases List.mem_cons.mp h1 with rfl | h2
        · exact Or.inl rfl
        · rcases ih h2 with h3 | ⟨l, hl, hxl⟩
          · exact Or.inl h3
          · exact Or.inr ⟨l, by simp [hl], hxl⟩

/-- Writing a canonical row's fields and reading them back is the
identity. -/
theorem row_cells_round (r : List Cell) (hr : rowCanonical r = true) :
    (([','].intercalate (r.map cellChars)).splitOn ',').map parseCell = r := by
  obtain ⟨hne, hok⟩ := rowCanonical_ok r hr
  rw [List.splitOn_intercalate]
  · rw [List.map_map]
    have hcong : ∀ c ∈ r, (parseCell ∘ cellChars) c = id c := fun c hcm =>
      cell_round_trip c (hok c hcm)
    rw [List.map_congr_left hcong, List.map_id]
  · intro l hl
    obtain ⟨c, hcm, hceq⟩ := List.mem_map.mp hl
    rw [← hceq]
    exact (cell_safe c (hok c hcm)).1
  · simpa using hne

/-- A canonical row's CSV record contains no record separator. -/
theorem row_line_safe (r : List Cell) (hr : rowCanonical r = true) :
    '\n' ∉ [','].intercalate (r.map cellChars) := by
  obtain ⟨-, hok⟩ := rowCanonical_ok r hr
  intro hmem
  rcases mem_intercalate_single hmem with h | ⟨l, hl, hxl⟩
  · revert h
    decide
  · obtain ⟨c, hcm, hceq⟩ := List.mem_map.mp hl
    rw [← hceq] at hxl
    exact (cell_safe c (hok c hcm)).2 hxl

/-- Writing a canonical table to CSV characters and reading them back
recovers the table exactly. -/
theorem write_read_round (t : Table) (h : tableCanonical t = true) :
    read_glm_csv (writeCsv t) = some t := by
  simp only [tableCanonical, Bool.and_eq_true, beq_iff_eq, List.all_eq_true] at h
  obtain ⟨hhdr, hrows⟩ := h
  unfold read_glm_csv writeCsv csvChars
  rw [List.map_cons]
  have hx : ∀ line ∈ ([','].intercalate (t.header.map String.data) ::
      (t.rows.map (fun r => r.map cellChars)).map (fun line => [','].intercalate line)),
      '\n' ∉ line := by
    intro line hline
    rcases List.mem_cons.mp hline with rfl | hrm
    · rw [hhdr]
      decide
    · obtain ⟨cells, hcm, hceq⟩ := List.mem_map.mp hrm
      obtain ⟨r, hr, hreq⟩ := List.mem_map.mp hcm
      rw [← hceq, ← hreq]
      exact row_line_safe r (hrows r hr)
  rw [List.splitOn_intercalate _ '\n' hx (by simp)]
  show some (⟨(([','].intercalate (t.header.map String.data)).splitOn ',').map
      (fun cs => (⟨cs⟩ : String)),
    ((t.rows.map (fun r => r.map cellChars)).map
      (fun line => [','].intercalate line)).map
      (fun line => (line.splitOn ',').map parseCell)⟩ : Table) = some t
  have hA : (([','].intercalate (t.header.map String.data)).splitOn ',').map
      (fun cs => (⟨cs⟩ : String)) = t.header := by
    rw [hhdr]
    decide
  have hB : ((t.rows.map (fun r => r.map cellChars)).map
      (fun line => [','].intercalate line)).map
      (fun line => (line.splitOn ',').map parseCell) = t.rows := by
    rw [List.map_map, List.map_map]
    have hcong : ∀ r ∈ t.rows,
        (((fun line => (line.splitOn ',').map parseCell) ∘
          (fun line => [','].intercalate line)) ∘ (fun r => r.map cellChars)) r =
          id r := fun r hr => row_cells_round r (hrows r hr)
    rw [List.map_congr_left hcong, List.map_id]
  rw [hA, hB]

/-- C7: writing a canonical GLM table with `writeGlmFormat` succeeds and
reading the produced CSV back yields the same values in the same column
order. -/
theorem write_glm_round_trip (a : Historical) (t : Table)
    (ha : a.glm_met_data = some t) (h : tableCanonical t = true) :
    ∃ s : String, a.write_glm_met false = .ok s ∧ read_glm_csv s = some t := by
  refine ⟨writeCsv t, ?_, write_read_round t h⟩
  unfold Historical.write_glm_met
  rw [ha]

/-- Witness for C7: the notebook's first converted row round-trips through
the CSV writer and reader. -/
theorem write_glm_round_trip_witness :
    ∃ s : String, wGlmAdapter.write_glm_met false = .ok s ∧
      read_glm_csv s = some wGlmTable :=
  write_glm_round_trip wGlmAdapter wGlmTable rfl (by decide)

/-- C9: every provider adapter implements the single base-contract
operation set — constructor, `get_variables`, `write_met`,
`convert_to_glm`, `write_glm_met` — and the caller's
fetch-convert-persist lifecycle runs through that contract identically for
every provider. -/
theorem adapters_uniform_contract :
    (∀ (p : Provider) (loc : ℚ × ℚ) (dr : Date × Date) (vs : List String)
      (r : Response),
      runPipeline (opsOf p) loc dr vs r =
        (opsOf p).write_glm_met
          (((opsOf p).convert_to_glm
            (((opsOf p).get_variables ((opsOf p).init loc dr vs) r)).1).1) false) ∧
    (opsOf .historical).get_variables = Historical.get_variables ∧
    (opsOf .historical).write_met = Historical.write_met ∧
    (opsOf .historical).convert_to_glm = Historical.convert_to_glm ∧
    (opsOf .historical).write_glm_met = Historical.write_glm_met ∧
    (opsOf .climate).get_variables = Climate.get_variables ∧
    (opsOf .climate).write_met = Climate.write_met ∧
    (opsOf .climate).convert_to_glm = Climate.convert_to_glm ∧
    (opsOf .climate).write_glm_met = Climate.write_glm_met ∧
    (opsOf .nasaPower).get_variables = Power.get_variables ∧
    (opsOf .nasaPower).write_met = Power.write_met ∧
    (opsOf .nasaPower).convert_to_glm = Power.convert_to_glm ∧
    (opsOf .nasaPower).write_glm_met = Power.write_glm_met ∧
    (opsOf .silo).get_variables = Silo.get_variables ∧
    (opsOf .silo).write_met = Silo.write_met ∧
    (opsOf .silo).convert_to_glm = Silo.convert_to_glm ∧
    (opsOf .silo).write_glm_met = Silo.write_glm_met :=
  ⟨fun _ _ _ _ _ => rfl, rfl, rfl, rfl, rfl, rfl, rfl, rfl, rfl,
   rfl, rfl, rfl, rfl, rfl, rfl, rfl, rfl⟩

end GlmMet
